import Mathlib

/-!
Verification of the livestream repeater's ffmpeg utilities
(`src/ffmpeg-utils.js`) against its specification.

The JavaScript module is shallowly embedded: numeric config fields are
modelled as integers, absent (`undefined`) fields as `Option`-`none`,
JavaScript truthiness tests are spelled out explicitly (a number is falsy
exactly when it is 0, a string exactly when it is empty), and the argument
array built by successive `push` calls becomes a concatenation of list
sections in the same order as the pushes.
-/

namespace FfmpegUtils

/-- `config.frameRate` is either a number or the string "source"
(absent is modelled by wrapping in `Option`). -/
inductive FrameRate where
  | num (n : Int)
  | source
  deriving DecidableEq

/-- `config.bitrate` is either a kbps number or the string "auto". -/
inductive Bitrate where
  | num (n : Int)
  | auto
  deriving DecidableEq

/-- The stream configuration object consumed by `buildFfmpegArgs` and the
supervisor.  Fields the code reads with `config.x` that may be absent are
`Option`s; `none` stands for JavaScript `undefined`. -/
structure StreamConfig where
  loop : Bool := false
  loopCount : Option Int := none
  startTime : Option Int := none
  endTime : Option Int := none
  duration : Option Int := none
  resolution : Option String := none
  aspectRatio : Option String := none
  frameRate : Option FrameRate := none
  bitrate : Option Bitrate := none
  rtmpUrl : String := ""
  streamKey : Option String := none
  deriving DecidableEq

/-- `config.loop || config.loopCount === -1` (line 24). -/
def lcInfinite (c : StreamConfig) : Bool :=
  c.loop || decide (c.loopCount = some (-1))

/-- `config.loopCount > 1` (lines 26, 38); comparison with `undefined` is false. -/
def lcGtOne (c : StreamConfig) : Bool :=
  match c.loopCount with
  | some n => decide (1 < n)
  | none => false

/-- `const isLooping = config.loop || config.loopCount === -1 || config.loopCount > 1`
(line 38). -/
def isLooping (c : StreamConfig) : Bool :=
  lcInfinite c || lcGtOne c

/-- The `-stream_loop` input options (lines 24-28). -/
def loopSection (c : StreamConfig) : List String :=
  if lcInfinite c then ["-stream_loop", "-1"]
  else
    match c.loopCount with
    | some n => if 1 < n then ["-stream_loop", toString (n - 1)] else []
    | none => []

/-- The `-ss` start-trim option: `config.startTime && config.startTime > 0`
(lines 31-33); a 0 start is falsy, and a negative one fails the comparison. -/
def ssSection (c : StreamConfig) : List String :=
  match c.startTime with
  | some b => if 0 < b then ["-ss", toString b] else []
  | none => []

/-- The input-side `-t` duration cap (lines 39-41):
`!isLooping && config.endTime && config.startTime != null && config.endTime > config.startTime`.
Truthiness of `endTime` is `e ≠ 0`; `startTime != null` only requires presence. -/
def trimSection (c : StreamConfig) : List String :=
  if isLooping c then []
  else
    match c.endTime, c.startTime with
    | some e, some b => if e ≠ 0 ∧ b < e then ["-t", toString (e - b)] else []
    | _, _ => []

/-- Fixed video codec options (lines 47-49). -/
def codecSection : List String :=
  ["-c:v", "libx264", "-preset", "veryfast", "-tune", "zerolatency"]

/-- The resolution→dimension table (lines 56-60). -/
def resMap : String → Option String
  | "1080p" => some "1920:1080"
  | "720p" => some "1280:720"
  | "480p" => some "854:480"
  | _ => none

/-- The aspect-ratio table (lines 68-73). -/
def ratioMap : String → Option String
  | "16:9" => some "16/9"
  | "9:16" => some "9/16"
  | "1:1" => some "1/1"
  | "4:3" => some "4/3"
  | _ => none

/-- Scale filter entries (lines 55-64): added only when `resolution` is truthy,
differs from "source" and is a recognized key. -/
def resFilter (c : StreamConfig) : List String :=
  match c.resolution with
  | some r =>
    if r ≠ "" ∧ r ≠ "source" then
      match resMap r with
      | some dim => ["scale=" ++ dim]
      | none => []
    else []
  | none => []

/-- Display-aspect-ratio filter entries (lines 67-77). -/
def darFilter (c : StreamConfig) : List String :=
  match c.aspectRatio with
  | some a =>
    if a ≠ "" ∧ a ≠ "source" then
      match ratioMap a with
      | some ratio => ["setdar=" ++ ratio]
      | none => []
    else []
  | none => []

/-- `-vf` with comma-joined filters, only when the filter list is nonempty
(lines 79-81). -/
def vfSection (c : StreamConfig) : List String :=
  let filters := resFilter c ++ darFilter c
  if filters = [] then [] else ["-vf", String.intercalate "," filters]

/-- Framerate option (lines 84-86): truthy (nonzero number) and not "source". -/
def fpsSection (c : StreamConfig) : List String :=
  match c.frameRate with
  | some (.num n) => if n ≠ 0 then ["-r", toString n] else []
  | _ => []

/-- Bitrate options (lines 89-97): a truthy numeric bitrate yields explicit
rates with `bufsize` doubled; "auto", 0 or absent falls to the defaults. -/
def bitrateSection (c : StreamConfig) : List String :=
  match c.bitrate with
  | some (.num n) =>
    if n ≠ 0 then
      ["-b:v", toString n ++ "k", "-maxrate", toString n ++ "k",
       "-bufsize", toString (n * 2) ++ "k"]
    else ["-b:v", "4500k", "-maxrate", "4500k", "-bufsize", "9000k"]
  | _ => ["-b:v", "4500k", "-maxrate", "4500k", "-bufsize", "9000k"]

/-- Fixed audio options (lines 100-102). -/
def audioSection : List String :=
  ["-c:a", "aac", "-b:a", "128k", "-ar", "44100"]

/-- Output-side duration cap in minutes→seconds (lines 105-107). -/
def durationSection (c : StreamConfig) : List String :=
  match c.duration with
  | some d => if 0 < d then ["-t", toString (d * 60)] else []
  | none => []

/-- `config.rtmpUrl.replace(/\/$/, '')`: strips one trailing slash.
Written over the character list so that it reduces in the kernel. -/
def stripSlash (s : String) : String :=
  match s.data.getLast? with
  | some '/' => String.mk s.data.dropLast
  | _ => s

/-- The destination argument (lines 112-114): with a truthy stream key the
base URL is stripped of a trailing slash and the key appended; otherwise
the base URL is used verbatim. -/
def rtmpDest (c : StreamConfig) : String :=
  match c.streamKey with
  | some k => if k ≠ "" then stripSlash c.rtmpUrl ++ "/" ++ k else c.rtmpUrl
  | none => c.rtmpUrl

/-- `buildFfmpegArgs(filePath, config)` (lines 17-118): the pushes, in
source order, as a concatenation of sections. -/
def buildFfmpegArgs (filePath : String) (c : StreamConfig) : List String :=
  ["-re"] ++ loopSection c ++ ssSection c ++ trimSection c
    ++ ["-i", filePath] ++ codecSection ++ vfSection c ++ fpsSection c
    ++ bitrateSection c ++ audioSection ++ durationSection c
    ++ ["-f", "flv"] ++ [rtmpDest c]

/-- `MAX_RECONNECT_ATTEMPTS` (line 5). -/
def MAX_RECONNECT_ATTEMPTS : Nat := 10

/-- The five internal values `streamState.status` takes. -/
inductive Status where
  | running
  | reconnecting
  | stopped
  | completed
  | error
  deriving DecidableEq

/-- The JavaScript string for an internal status. -/
def statusStr : Status → String
  | .running => "running"
  | .reconnecting => "reconnecting"
  | .stopped => "stopped"
  | .completed => "completed"
  | .error => "error"

/-- A child-process handle; `killed` mirrors Node's `proc.killed`, which
becomes true once a kill signal has been sent. -/
structure ProcHandle where
  killed : Bool
  deriving DecidableEq

/-- `streamState.stats` (lines 192-195). -/
structure Stats where
  time : String
  loopCount : Int
  deriving DecidableEq

/-- The per-stream mutable state (lines 186-197).  `reconnectTimer` is true
when the field holds a (possibly stale) timer handle, false when it is null. -/
structure StreamState where
  process : Option ProcHandle
  status : Status
  startedAt : Nat
  reconnectAttempts : Nat
  reconnectTimer : Bool
  stats : Stats
  config : StreamConfig
  deriving DecidableEq

/-- Externally observable side effects of a supervisor step. -/
inductive Action where
  | spawnProc
  | scheduleTimer
  | cancelTimer
  | killSignal (sig : String)
  deriving DecidableEq

/-- Events serialized onto one stream's supervisory context: a process
`close` with an exit code, a reconnect-timer callback firing, a stderr
progress chunk, a `stopStream` request, and the per-stream body of
`stopAllStreams`. -/
inductive Ev where
  | procClose (code : Int)
  | timerFire
  | progressChunk (chunk : String)
  | stopReq
  | stopAllReq
  deriving DecidableEq

/-- `spawnFfmpeg`'s synchronous state writes (lines 125-130): install the
new live process handle and set status to running. -/
def spawnStep (st : StreamState) : StreamState × List Action :=
  ({ st with process := some { killed := false }, status := .running },
   [Action.spawnProc])

/-- The `close` handler (lines 155-177). -/
def closeStep (st : StreamState) (code : Int) : StreamState × List Action :=
  if st.status = .running ∧ code ≠ 0 then
    if st.reconnectAttempts < MAX_RECONNECT_ATTEMPTS then
      ({ st with reconnectAttempts := st.reconnectAttempts + 1,
                 status := .reconnecting, reconnectTimer := true },
       [Action.scheduleTimer])
    else
      ({ st with status := .error }, [])
  else if st.status = .running ∧ code = 0 then
    ({ st with status := .completed }, [])
  else (st, [])

/-- The reconnect-timer callback (lines 165-169): re-spawn only if the
status is still `reconnecting` at fire time. -/
def timerFireStep (st : StreamState) : StreamState × List Action :=
  if st.status = .reconnecting then spawnStep st else (st, [])

/-- The numeric value of a digit character. -/
def digitVal (c : Char) : Nat := c.toNat - Char.toNat '0'

/-- Try to match `time=\d\d:\d\d:\d\d` at the head of the character list,
yielding the three two-digit groups. -/
def timeAt : List Char → Option (Nat × Nat × Nat)
  | 't' :: 'i' :: 'm' :: 'e' :: '=' :: h1 :: h2 :: ':' :: m1 :: m2 :: ':' :: s1 :: s2 :: _ =>
    if h1.isDigit ∧ h2.isDigit ∧ m1.isDigit ∧ m2.isDigit ∧ s1.isDigit ∧ s2.isDigit then
      some (digitVal h1 * 10 + digitVal h2,
            digitVal m1 * 10 + digitVal m2,
            digitVal s1 * 10 + digitVal s2)
    else none
  | _ => none

/-- Scan left to right for the first match, as the anchor-free regex does. -/
def scanTime : List Char → Option (Nat × Nat × Nat)
  | [] => none
  | c :: rest =>
    match timeAt (c :: rest) with
    | some t => some t
    | none => scanTime rest

/-- `output.match(/time=(\d{2}:\d{2}:\d{2})/)` (line 137): the first
`time=HH:MM:SS` marker in the chunk, if any. -/
def findTimeMarker (s : String) : Option (Nat × Nat × Nat) :=
  scanTime s.data

/-- Two-digit rendering of a matched group, reconstructing the matched text. -/
def two (n : Nat) : String :=
  (if n < 10 then "0" else "") ++ toString n

/-- The `HH:MM:SS` string of the three matched groups. -/
def fmtTime (h m s : Nat) : String :=
  two h ++ ":" ++ two m ++ ":" ++ two s

/-- The stderr `data` handler (lines 133-153): on a time match update
`stats.time`, reset `reconnectAttempts`, and when the clip window is
truthy-known and positive derive `loopCount = floor(elapsed/clip) + 1`. -/
def progressStep (st : StreamState) (chunk : String) : StreamState × List Action :=
  match findTimeMarker chunk with
  | none => (st, [])
  | some (h, m, s) =>
    let stats1 : Stats := { st.stats with time := fmtTime h m s }
    let st1 : StreamState := { st with stats := stats1, reconnectAttempts := 0 }
    match st.config.endTime, st.config.startTime with
    | some e, some b =>
      if e ≠ 0 then
        let clip : Int := e - b
        if 0 < clip then
          let elapsed : Int := (h * 3600 + m * 60 + s : Nat)
          ({ st1 with stats := { stats1 with loopCount := Int.fdiv elapsed clip + 1 } }, [])
        else (st1, [])
      else (st1, [])
    | _, _ => (st1, [])

/-- The body of `stopStream` once the guard has passed (lines 211-237):
record `stopped`, clear a pending timer, send SIGINT to a live process. -/
def stopBody (st : StreamState) : StreamState × List Action :=
  let timerActs : List Action :=
    if st.reconnectTimer then [Action.cancelTimer] else []
  let procKill : Option ProcHandle × List Action :=
    match st.process with
    | some p =>
      if p.killed then (some p, [])
      else (some { p with killed := true }, [Action.killSignal "SIGINT"])
    | none => (none, [])
  ({ st with status := .stopped, reconnectTimer := false, process := procKill.1 },
   timerActs ++ procKill.2)

/-- The per-stream body of `stopAllStreams` (lines 255-269): non-terminal
streams get their timer cleared (field left stale), SIGKILL if live, and
status stopped; terminal streams are untouched. -/
def stopAllBody (st : StreamState) : StreamState × List Action :=
  if st.status = .running ∨ st.status = .reconnecting then
    let timerActs : List Action :=
      if st.reconnectTimer then [Action.cancelTimer] else []
    let procKill : Option ProcHandle × List Action :=
      match st.process with
      | some p =>
        if p.killed then (some p, [])
        else (some { p with killed := true }, [Action.killSignal "SIGKILL"])
      | none => (none, [])
    ({ st with status := .stopped, process := procKill.1 },
     timerActs ++ procKill.2)
  else (st, [])

/-- One serialized event on a stream's state.  The `stopReq` guard mirrors
line 207: only `running` or `reconnecting` streams are affected. -/
def streamStep (st : StreamState) : Ev → StreamState × List Action
  | .procClose code => closeStep st code
  | .timerFire => timerFireStep st
  | .progressChunk chunk => progressStep st chunk
  | .stopReq =>
    if st.status = .running ∨ st.status = .reconnecting then stopBody st
    else (st, [])
  | .stopAllReq => stopAllBody st

/-- Run a sequence of events, accumulating all emitted actions. -/
def runEvents (st : StreamState) : List Ev → StreamState × List Action
  | [] => (st, [])
  | e :: evs =>
    ((runEvents (streamStep st e).1 evs).1,
     (streamStep st e).2 ++ (runEvents (streamStep st e).1 evs).2)

/-- The registry `activeStreams` (line 3), as an insertion-ordered
association list mirroring a JavaScript `Map`. -/
def Registry : Type := List (String × StreamState)

/-- `activeStreams.get(id)`. -/
def lookupR (r : Registry) (id : String) : Option StreamState :=
  match r with
  | [] => none
  | (k, v) :: rest => if k = id then some v else lookupR rest id

/-- `activeStreams.set(id, st)`: replace in place, or append a new entry. -/
def setR (r : Registry) (id : String) (st : StreamState) : Registry :=
  match r with
  | [] => [(id, st)]
  | (k, v) :: rest =>
    if k = id then (k, st) :: rest else (k, v) :: setR rest id st

/-- The fresh `StreamState` literal in `startStream` (lines 186-197). -/
def freshState (config : StreamConfig) (now : Nat) : StreamState :=
  { process := none
    status := .running
    startedAt := now
    reconnectAttempts := 0
    reconnectTimer := false
    stats := { time := "00:00:00", loopCount := 1 }
    config := config }

/-- `startStream(streamId, filePath, config)` (lines 185-203): register a
fresh state unconditionally, then spawn.  `now` stands for `Date.now()`. -/
def startStreamR (r : Registry) (id : String) (config : StreamConfig)
    (now : Nat) : Registry × String × List Action :=
  let st0 := freshState config now
  let spawned := spawnStep st0
  (setR r id spawned.1, id, spawned.2)

/-- `stopStream(streamId)` (lines 205-238). -/
def stopStreamR (r : Registry) (id : String) : Registry × Bool × List Action :=
  match lookupR r id with
  | none => (r, false, [])
  | some st =>
    if st.status = .running ∨ st.status = .reconnecting then
      let stopped := stopBody st
      (setR r id stopped.1, true, stopped.2)
    else (r, false, [])

/-- The object returned by `getStreamStatus`; a `none` in `reconnecting`
or `reconnectAttempt` models a field that is absent from the returned
object (reads as `undefined`), and `none` in `stats` models the empty
object `{}`. -/
structure StatusView where
  status : String
  reconnecting : Option Bool
  reconnectAttempt : Option Nat
  stats : Option Stats
  deriving DecidableEq

/-- `getStreamStatus(streamId)` (lines 240-252). -/
def getStreamStatusR (r : Registry) (id : String) : StatusView :=
  match lookupR r id with
  | none =>
    { status := "not_found", reconnecting := none,
      reconnectAttempt := none, stats := none }
  | some st =>
    { status := if st.status = .reconnecting then "running" else statusStr st.status
      reconnecting := some (decide (st.status = .reconnecting))
      reconnectAttempt := some st.reconnectAttempts
      stats := some st.stats }

/-- `stopAllStreams()` (lines 254-271): apply the per-stream body to every
entry in iteration order. -/
def stopAllStreamsR (r : Registry) : Registry :=
  r.map (fun p => (p.1, (stopAllBody p.2).1))

/-! ### Helper lemmas -/

/-- Every character that `Nat.toDigitsCore` in base 10 prepends is a digit. -/
theorem toDigitsCore_digits (fuel : Nat) :
    ∀ (n : Nat) (ds : List Char), (∀ c ∈ ds, c.isDigit = true) →
      ∀ c ∈ Nat.toDigitsCore 10 fuel n ds, c.isDigit = true := by
  induction fuel with
  | zero =>
    intro n ds hds c hc
    exact hds c (by simpa [Nat.toDigitsCore] using hc)
  | succ f ih =>
    intro n ds hds c hc
    have hdg : ∀ m : Nat, m < 10 → (Nat.digitChar m).isDigit = true := by decide
    have hcons : ∀ d ∈ Nat.digitChar (n % 10) :: ds, d.isDigit = true := by
      intro d hd
      rcases List.mem_cons.mp hd with h | h
      · subst h; exact hdg _ (Nat.mod_lt _ (by norm_num))
      · exact hds d h
    simp only [Nat.toDigitsCore] at hc
    split at hc
    · exact hcons c hc
    · exact ih (n / 10) (Nat.digitChar (n % 10) :: ds) hcons c hc

/-- Every character of `Nat.repr` is a digit. -/
theorem natRepr_digits (n : Nat) : ∀ c ∈ (Nat.repr n).data, c.isDigit = true := by
  intro c hc
  have hm : c ∈ Nat.toDigitsCore 10 (n + 1) n [] := by
    simpa [Nat.repr, Nat.toDigits, List.asString] using hc
  exact toDigitsCore_digits (n + 1) n [] (by simp) c hm

/-- The decimal rendering of an integer is never a dash followed by a
non-digit character. -/
theorem int_toString_ne_dash (x : Int) (c : Char) (hc : c.isDigit = false) :
    toString x ≠ String.mk ['-', c] := by
  cases x with
  | ofNat m =>
    intro h
    have he : toString (Int.ofNat m) = Nat.repr m := rfl
    rw [he] at h
    have hdata : (Nat.repr m).data = ['-', c] := congrArg String.data h
    have hmem : '-' ∈ (Nat.repr m).data := by
      rw [hdata]; exact List.mem_cons_self _ _
    have := natRepr_digits m '-' hmem
    simp at this
  | negSucc m =>
    intro h
    have he : toString (Int.negSucc m) = "-" ++ Nat.repr (m + 1) := rfl
    rw [he] at h
    have hdata : ("-" ++ Nat.repr (m + 1)).data = ['-', c] := congrArg String.data h
    rw [String.data_append] at hdata
    have hdata2 : (Nat.repr (m + 1)).data = [c] := by
      have : '-' :: (Nat.repr (m + 1)).data = ['-', c] := hdata
      exact List.cons_injective.eq_iff.mp this
    have hmem : c ∈ (Nat.repr (m + 1)).data := by
      rw [hdata2]; exact List.mem_cons_self _ _
    have := natRepr_digits (m + 1) c hmem
    rw [hc] at this
    exact Bool.false_ne_true this

/-- `String(n)` for an integer `n` is never the flag `-t`. -/
theorem int_toString_ne_t (x : Int) : toString x ≠ "-t" := by
  intro h
  exact int_toString_ne_dash x 't' (by decide) (by rw [h])

/-- `String(n)` for an integer `n` is never the flag `-i`. -/
theorem int_toString_ne_i (x : Int) : toString x ≠ "-i" := by
  intro h
  exact int_toString_ne_dash x 'i' (by decide) (by rw [h])

/-- The three statuses the spec calls terminal. -/
def isTerminal (s : Status) : Bool :=
  s = .stopped ∨ s = .completed ∨ s = .error

/-- A single serialized event neither moves a terminal status nor spawns a
process from it. -/
theorem streamStep_terminal (st : StreamState) (e : Ev)
    (h : isTerminal st.status = true) :
    (streamStep st e).1.status = st.status ∧
      Action.spawnProc ∉ (streamStep st e).2 := by
  cases e <;> cases hs : st.status <;>
    simp_all [streamStep, closeStep, timerFireStep, progressStep, stopAllBody,
      stopBody, spawnStep, isTerminal] <;>
    (repeat' split) <;>
    simp_all

/-- No event sequence moves a terminal status or spawns a process from it. -/
theorem runEvents_terminal (st : StreamState) (evs : List Ev)
    (h : isTerminal st.status = true) :
    (runEvents st evs).1.status = st.status ∧
      Action.spawnProc ∉ (runEvents st evs).2 := by
  induction evs generalizing st with
  | nil => simp [runEvents]
  | cons e evs ih =>
    obtain ⟨h1, h2⟩ := streamStep_terminal st e h
    have hterm1 : isTerminal (streamStep st e).1.status = true := by
      rw [h1]; exact h
    obtain ⟨h3, h4⟩ := ih _ hterm1
    refine ⟨by simpa [runEvents, h3] using h1, ?_⟩
    simp only [runEvents, List.mem_append]
    rintro (hc | hc)
    · exact h2 hc
    · exact h4 hc

/-- Looking up the key just set returns the new state. -/
theorem lookupR_setR_self (r : Registry) (id : String) (st : StreamState) :
    lookupR (setR r id st) id = some st := by
  induction r with
  | nil => simp [setR, lookupR]
  | cons p rest ih =>
    rcases p with ⟨k, v⟩
    by_cases h : k = id <;> simp [setR, lookupR, h, ih]

/-- Setting one key leaves every other key's lookup unchanged. -/
theorem lookupR_setR_ne (r : Registry) (id j : String) (st : StreamState)
    (hne : j ≠ id) :
    lookupR (setR r id st) j = lookupR r j := by
  induction r with
  | nil => simp [setR, lookupR, Ne.symm hne]
  | cons p rest ih =>
    rcases p with ⟨k, v⟩
    by_cases h : k = id
    · subst h
      simp [setR, lookupR, Ne.symm hne]
    · simp [setR, lookupR, h, ih]

/-! ### Claims -/

/-- C3: on a nonzero exit of a running stream, when `reconnectAttempts`
already equals the fixed maximum (10) the status becomes `error` and no
relaunch is scheduled and nothing is spawned; when it is below the
maximum the counter is incremented, the status becomes `reconnecting`,
and a delayed relaunch is scheduled. -/
theorem C3_reconnect_policy (st : StreamState) (code : Int)
    (hrun : st.status = .running) (hcode : code ≠ 0) :
    (st.reconnectAttempts = MAX_RECONNECT_ATTEMPTS →
      (closeStep st code).1.status = .error ∧
      Action.scheduleTimer ∉ (closeStep st code).2 ∧
      Action.spawnProc ∉ (closeStep st code).2) ∧
    (st.reconnectAttempts < MAX_RECONNECT_ATTEMPTS →
      (closeStep st code).1.reconnectAttempts = st.reconnectAttempts + 1 ∧
      (closeStep st code).1.status = .reconnecting ∧
      Action.scheduleTimer ∈ (closeStep st code).2) := by
  constructor
  · intro hmax
    simp [closeStep, hrun, hcode, hmax]
  · intro hlt
    simp [closeStep, hrun, hcode, hlt]

/-- C3 witness: a running stream at 10 attempts errors out on exit code 1,
while one at 0 attempts goes to `reconnecting`. -/
theorem C3_reconnect_policy_witness :
    (closeStep ⟨none, .running, 0, 10, false, ⟨"00:00:00", 1⟩, {}⟩ 1).1.status
        = .error ∧
    (closeStep ⟨none, .running, 0, 0, false, ⟨"00:00:00", 1⟩, {}⟩ 1).1.status
        = .reconnecting := by
  constructor
  · exact ((C3_reconnect_policy _ 1 rfl (by decide)).1 rfl).1
  · exact ((C3_reconnect_policy _ 1 rfl (by decide)).2 (by decide)).2.1

/-- C4: once a stream's status is `stopped`, `completed` or `error`, no
sequence of subsequent events (process exits, timer fires, progress
chunks, stop requests, global shutdown) ever changes the status again. -/
theorem C4_terminal_states_frozen (st : StreamState) (evs : List Ev)
    (h : st.status = .stopped ∨ st.status = .completed ∨ st.status = .error) :
    (runEvents st evs).1.status = st.status := by
  refine (runEvents_terminal st evs ?_).1
  simp only [isTerminal, decide_eq_true_eq]
  exact h

/-- C4 witness: a completed stream keeps its status through an exit, a
timer fire, a progress chunk, a stop request and a global shutdown. -/
theorem C4_terminal_states_frozen_witness :
    (runEvents ⟨none, .completed, 0, 2, false, ⟨"00:00:07", 1⟩, {}⟩
      [Ev.procClose 1, Ev.timerFire, Ev.progressChunk "time=00:00:09 x",
       Ev.stopReq, Ev.stopAllReq]).1.status = .completed :=
  C4_terminal_states_frozen _ _ (Or.inr (Or.inl rfl))

/-- C9: `buildFfmpegArgs` is modelled as a pure function of the file path
and the configuration alone — the source reads no registry or other
mutable state in it — so two calls with identical inputs return identical
argument lists. -/
theorem C9_build_args_deterministic (fp1 fp2 : String) (c1 c2 : StreamConfig)
    (hfp : fp1 = fp2) (hc : c1 = c2) :
    buildFfmpegArgs fp1 c1 = buildFfmpegArgs fp2 c2 := by
  rw [hfp, hc]

/-- C9 witness: two identical calls agree on a concrete input. -/
theorem C9_build_args_deterministic_witness :
    buildFfmpegArgs "f.mp4" { rtmpUrl := "rtmp://x/live" }
      = buildFfmpegArgs "f.mp4" { rtmpUrl := "rtmp://x/live" } :=
  C9_build_args_deterministic _ _ _ _ rfl rfl

/-- C8: when a progress chunk contains an `HH:MM:SS` time marker and the
configured clip window `endTime - startTime` is known (truthy `endTime`,
present `startTime`) and positive, the derived loop count equals
`floor(elapsed / clip) + 1`. -/
theorem C8_loop_count_derivation (st : StreamState) (chunk : String)
    (h m s : Nat) (e b : Int)
    (hfind : findTimeMarker chunk = some (h, m, s))
    (he : st.config.endTime = some e) (hb : st.config.startTime = some b)
    (hne : e ≠ 0) (hpos : 0 < e - b) :
    (progressStep st chunk).1.stats.loopCount
      = Int.fdiv ((h * 3600 + m * 60 + s : Nat) : Int) (e - b) + 1 := by
  simp [progressStep, hfind, he, hb, hne, hpos]

/-- C8 witness: elapsed `00:01:30` against a 45-second clip window yields
`loopCount = 3`. -/
theorem C8_loop_count_derivation_witness :
    (progressStep
      ⟨none, .running, 0, 0, false, ⟨"00:00:00", 1⟩,
        { startTime := some 0, endTime := some 45 }⟩
      "frame=  10 time=00:01:30.05 bitrate=1k").1.stats.loopCount = 3 := by
  have h := C8_loop_count_derivation
    ⟨none, .running, 0, 0, false, ⟨"00:00:00", 1⟩,
      { startTime := some 0, endTime := some 45 }⟩
    "frame=  10 time=00:01:30.05 bitrate=1k" 0 1 30 45 0
    (by decide) rfl rfl (by decide) (by decide)
  exact h.trans (by decide)

/-- C2: stopping a `reconnecting` stream with a pending relaunch timer
returns true, cancels the timer, and records `stopped`; after that, no
sequence of events — including a stale timer that nevertheless fires —
ever spawns a new process for that stream, because the fire-time status
check sees `stopped`. -/
theorem C2_stop_kills_pending_reconnect (r : Registry) (id : String)
    (st : StreamState) (hlook : lookupR r id = some st)
    (hst : st.status = .reconnecting) (htimer : st.reconnectTimer = true) :
    (stopStreamR r id).2.1 = true ∧
    Action.cancelTimer ∈ (stopStreamR r id).2.2 ∧
    lookupR (stopStreamR r id).1 id = some (stopBody st).1 ∧
    (stopBody st).1.status = .stopped ∧
    (stopBody st).1.reconnectTimer = false ∧
    ∀ evs : List Ev, Action.spawnProc ∉ (runEvents (stopBody st).1 evs).2 := by
  have hguard : st.status = .running ∨ st.status = .reconnecting := Or.inr hst
  have hstop : stopStreamR r id = (setR r id (stopBody st).1, true, (stopBody st).2) := by
    simp [stopStreamR, hlook, hguard]
  refine ⟨by rw [hstop], ?_, ?_, by simp [stopBody], by simp [stopBody], ?_⟩
  · rw [hstop]
    simp [stopBody, htimer]
  · rw [hstop]
    exact lookupR_setR_self r id _
  · intro evs
    exact (runEvents_terminal (stopBody st).1 evs (by simp [isTerminal, stopBody])).2

/-- C2 witness: stopping a concrete reconnecting stream returns true,
cancels its timer, and a later stale timer fire plus process exit spawn
nothing. -/
theorem C2_stop_kills_pending_reconnect_witness :
    (stopStreamR [("s1", ⟨some ⟨false⟩, .reconnecting, 0, 3, true,
        ⟨"00:00:10", 1⟩, {}⟩)] "s1").2.1 = true ∧
    Action.spawnProc ∉
      (runEvents (stopBody ⟨some ⟨false⟩, .reconnecting, 0, 3, true,
          ⟨"00:00:10", 1⟩, {}⟩).1
        [Ev.timerFire, Ev.procClose 1, Ev.timerFire]).2 := by
  have h := C2_stop_kills_pending_reconnect
    [("s1", ⟨some ⟨false⟩, .reconnecting, 0, 3, true, ⟨"00:00:10", 1⟩, {}⟩)]
    "s1" ⟨some ⟨false⟩, .reconnecting, 0, 3, true, ⟨"00:00:10", 1⟩, {}⟩
    rfl rfl rfl
  exact ⟨h.1, h.2.2.2.2.2 [Ev.timerFire, Ev.procClose 1, Ev.timerFire]⟩

/-- C5: `stopStream` returns false and leaves everything unchanged when
the id is unknown or the stream is not `running`/`reconnecting`;
otherwise it records `stopped`, clears a pending reconnect timer,
sends SIGINT to a live un-killed process, and returns true. -/
theorem C5_stopStream_contract (r : Registry) (id : String) :
    (lookupR r id = none → stopStreamR r id = (r, false, [])) ∧
    ∀ st, lookupR r id = some st →
      (¬ (st.status = .running ∨ st.status = .reconnecting) →
        stopStreamR r id = (r, false, [])) ∧
      (st.status = .running ∨ st.status = .reconnecting →
        (stopStreamR r id).2.1 = true ∧
        lookupR (stopStreamR r id).1 id = some (stopBody st).1 ∧
        (stopBody st).1.status = .stopped ∧
        (stopBody st).1.reconnectTimer = false ∧
        (st.reconnectTimer = true →
          Action.cancelTimer ∈ (stopStreamR r id).2.2) ∧
        ∀ p, st.process = some p → p.killed = false →
          Action.killSignal "SIGINT" ∈ (stopStreamR r id).2.2) := by
  constructor
  · intro hnone
    simp [stopStreamR, hnone]
  · intro st hsome
    constructor
    · intro hbad
      simp [stopStreamR, hsome, hbad]
    · intro hguard
      have hstop : stopStreamR r id
          = (setR r id (stopBody st).1, true, (stopBody st).2) := by
        simp [stopStreamR, hsome, hguard]
      refine ⟨by rw [hstop], ?_, by simp [stopBody], by simp [stopBody], ?_, ?_⟩
      · rw [hstop]
        exact lookupR_setR_self r id _
      · intro htimer
        rw [hstop]
        simp [stopBody, htimer]
      · intro p hp hkilled
        rw [hstop]
        simp [stopBody, hp, hkilled]

/-- C5 witness: an unknown id is refused; a running stream with a live
process and pending timer is stopped with SIGINT and timer cancellation. -/
theorem C5_stopStream_contract_witness :
    stopStreamR [] "ghost" = ([], false, []) ∧
    (stopStreamR [("s1", ⟨some ⟨false⟩, .running, 0, 0, true,
        ⟨"00:00:00", 1⟩, {}⟩)] "s1").2.1 = true ∧
    Action.killSignal "SIGINT" ∈
      (stopStreamR [("s1", ⟨some ⟨false⟩, .running, 0, 0, true,
        ⟨"00:00:00", 1⟩, {}⟩)] "s1").2.2 := by
  have h := ((C5_stopStream_contract
      [("s1", ⟨some ⟨false⟩, .running, 0, 0, true, ⟨"00:00:00", 1⟩, {}⟩)]
      "s1").2
    ⟨some ⟨false⟩, .running, 0, 0, true, ⟨"00:00:00", 1⟩, {}⟩ rfl).2
    (Or.inl rfl)
  exact ⟨(C5_stopStream_contract [] "ghost").1 rfl, h.1,
    h.2.2.2.2.2 ⟨false⟩ rfl rfl⟩

/-- C6 counterexample: on an id never passed to `start`, the returned
object carries neither a `reconnecting` boolean nor a `reconnectAttempt`
integer — the field reads as `undefined` — so the claim that every id
yields all four fields of the interface shape fails. -/
theorem C6_counterexample :
    (getStreamStatusR [] "s1").status = "not_found" ∧
    (getStreamStatusR [] "s1").reconnecting = none ∧
    (getStreamStatusR [] "s1").reconnectAttempt = none ∧
    (getStreamStatusR [] "s1").stats = none := by
  decide

/-- C6 (amended): a known id yields all four fields — with an internal
`reconnecting` reported as status "running" plus `reconnecting = true` —
while an id never passed to `start` yields only status "not_found" and
empty stats, its `reconnecting`/`reconnectAttempt` fields absent. -/
theorem C6_getStreamStatus_shape (r : Registry) (id : String) :
    (lookupR r id = none →
      getStreamStatusR r id =
        { status := "not_found", reconnecting := none,
          reconnectAttempt := none, stats := none }) ∧
    ∀ st, lookupR r id = some st →
      (getStreamStatusR r id).reconnecting
          = some (decide (st.status = .reconnecting)) ∧
      (getStreamStatusR r id).reconnectAttempt = some st.reconnectAttempts ∧
      (getStreamStatusR r id).stats = some st.stats ∧
      (st.status = .reconnecting →
        (getStreamStatusR r id).status = "running" ∧
        (getStreamStatusR r id).reconnecting = some true) ∧
      (st.status ≠ .reconnecting →
        (getStreamStatusR r id).status = statusStr st.status) := by
  constructor
  · intro hnone
    simp [getStreamStatusR, hnone]
  · intro st hsome
    refine ⟨by simp [getStreamStatusR, hsome], by simp [getStreamStatusR, hsome],
      by simp [getStreamStatusR, hsome], ?_, ?_⟩
    · intro hrec
      simp [getStreamStatusR, hsome, hrec]
    · intro hrec
      simp [getStreamStatusR, hsome, hrec]

/-- C6 witness: a reconnecting stream reads as "running" with
`reconnecting = true` and attempt count 4. -/
theorem C6_getStreamStatus_shape_witness :
    (getStreamStatusR [("s1", ⟨none, .reconnecting, 0, 4, true,
        ⟨"00:00:30", 2⟩, {}⟩)] "s1").status = "running" ∧
    (getStreamStatusR [("s1", ⟨none, .reconnecting, 0, 4, true,
        ⟨"00:00:30", 2⟩, {}⟩)] "s1").reconnecting = some true ∧
    (getStreamStatusR [("s1", ⟨none, .reconnecting, 0, 4, true,
        ⟨"00:00:30", 2⟩, {}⟩)] "s1").reconnectAttempt = some 4 := by
  have h := ((C6_getStreamStatus_shape
    [("s1", ⟨none, .reconnecting, 0, 4, true, ⟨"00:00:30", 2⟩, {}⟩)] "s1").2
    ⟨none, .reconnecting, 0, 4, true, ⟨"00:00:30", 2⟩, {}⟩ rfl)
  exact ⟨(h.2.2.2.1 rfl).1, (h.2.2.2.1 rfl).2, h.2.1⟩

/-- C10: `startStream` on an id already registered unconditionally
installs a fresh spawned state (status `running`, zero attempts, reset
stats, the given config), emits only a spawn — no kill signal and no
timer cancellation for the old entry — and leaves every other id alone;
the old state is no longer what lookup returns. -/
theorem C10_start_replaces_without_cleanup (r : Registry) (id : String)
    (old : StreamState) (config : StreamConfig) (now : Nat)
    (hold : lookupR r id = some old) :
    lookupR (startStreamR r id config now).1 id
        = some (spawnStep (freshState config now)).1 ∧
    (spawnStep (freshState config now)).1.status = .running ∧
    (spawnStep (freshState config now)).1.reconnectAttempts = 0 ∧
    (spawnStep (freshState config now)).1.stats
        = { time := "00:00:00", loopCount := 1 } ∧
    (spawnStep (freshState config now)).1.config = config ∧
    (startStreamR r id config now).2.2 = [Action.spawnProc] ∧
    (∀ sig, Action.killSignal sig ∉ (startStreamR r id config now).2.2) ∧
    Action.cancelTimer ∉ (startStreamR r id config now).2.2 ∧
    ∀ j, j ≠ id → lookupR (startStreamR r id config now).1 j = lookupR r j := by
  refine ⟨?_, rfl, rfl, rfl, rfl, rfl, ?_, ?_, ?_⟩
  · exact lookupR_setR_self r id _
  · intro sig
    simp [startStreamR, spawnStep]
  · simp [startStreamR, spawnStep]
  · intro j hj
    exact lookupR_setR_ne r id j _ hj

/-- C10 witness: restarting an id that holds a live reconnecting stream
replaces it with a fresh running state and emits only a spawn. -/
theorem C10_start_replaces_without_cleanup_witness :
    lookupR (startStreamR [("s1", ⟨some ⟨false⟩, .reconnecting, 0, 3, true,
        ⟨"00:01:00", 2⟩, {}⟩)] "s1" {} 7).1 "s1"
      = some (spawnStep (freshState {} 7)).1 ∧
    (startStreamR [("s1", ⟨some ⟨false⟩, .reconnecting, 0, 3, true,
        ⟨"00:01:00", 2⟩, {}⟩)] "s1" {} 7).2.2 = [Action.spawnProc] := by
  have h := C10_start_replaces_without_cleanup
    [("s1", ⟨some ⟨false⟩, .reconnecting, 0, 3, true, ⟨"00:01:00", 2⟩, {}⟩)]
    "s1" ⟨some ⟨false⟩, .reconnecting, 0, 3, true, ⟨"00:01:00", 2⟩, {}⟩ {} 7 rfl
  exact ⟨h.1, h.2.2.2.2.2.1⟩

set_option maxHeartbeats 1000000 in
/-- C1: with a finite loop count greater than 1 and a clip window with
`endTime > startTime`, the built argument list carries no input-side
duration cap: `-t` does not occur before the `-i` input marker. -/
theorem C1_loop_suppresses_input_trim (fp : String) (c : StreamConfig)
    (n e b : Int) (hlc : c.loopCount = some n) (hn : 1 < n)
    (he : c.endTime = some e) (hb : c.startTime = some b) (heb : b < e) :
    "-t" ∉ (buildFfmpegArgs fp c).takeWhile (fun a => a != "-i") := by
  have hlooping : isLooping c = true := by
    simp [isLooping, lcGtOne, hlc, hn]
  have htrim : trimSection c = [] := by
    simp [trimSection, hlooping]
  have hloop : loopSection c = ["-stream_loop", "-1"]
      ∨ loopSection c = ["-stream_loop", toString (n - 1)] := by
    by_cases hinf : lcInfinite c = true
    · left; simp [loopSection, hinf]
    · right; simp [loopSection, hinf, hlc, hn]
  have hss : ssSection c = [] ∨ ssSection c = ["-ss", toString b] := by
    by_cases hpos : 0 < b
    · right; simp [ssSection, hb, hpos]
    · left; simp [ssSection, hb, hpos]
  have hargs : buildFfmpegArgs fp c
      = (["-re"] ++ loopSection c ++ ssSection c)
        ++ ("-i" :: (fp :: (codecSection ++ vfSection c ++ fpsSection c
          ++ bitrateSection c ++ audioSection ++ durationSection c
          ++ ["-f", "flv"] ++ [rtmpDest c]))) := by
    simp [buildFfmpegArgs, htrim]
  have hall : ∀ a ∈ ["-re"] ++ loopSection c ++ ssSection c,
      (a != "-i") = true := by
    intro a ha
    have hmem : a = "-re" ∨ a = "-stream_loop" ∨ a = "-1"
        ∨ a = toString (n - 1) ∨ a = "-ss" ∨ a = toString b := by
      rcases hloop with h1 | h1 <;> rcases hss with h2 | h2 <;>
        rw [h1, h2] at ha <;> simp at ha <;> tauto
    rcases hmem with h | h | h | h | h | h <;> subst h
    · decide
    · decide
    · decide
    · simpa using int_toString_ne_i (n - 1)
    · decide
    · simpa using int_toString_ne_i b
  rw [hargs, List.takeWhile_append_of_pos hall]
  have hstop : List.takeWhile (fun a => a != "-i")
      ("-i" :: (fp :: (codecSection ++ vfSection c ++ fpsSection c
        ++ bitrateSection c ++ audioSection ++ durationSection c
        ++ ["-f", "flv"] ++ [rtmpDest c]))) = [] := by
    simp [List.takeWhile_cons]
  rw [hstop]
  have hnt1 : toString (n - 1) ≠ "-t" := int_toString_ne_t (n - 1)
  have hnt2 : toString b ≠ "-t" := int_toString_ne_t b
  rcases hloop with h1 | h1 <;> rcases hss with h2 | h2 <;>
    simp [h1, h2, Ne.symm hnt1, Ne.symm hnt2]

/-- C1 witness: loop count 2 over the window [0, 45) yields an argument
list whose input section has no `-t`. -/
theorem C1_loop_suppresses_input_trim_witness :
    "-t" ∉ (buildFfmpegArgs "f.mp4"
      { loopCount := some 2, startTime := some 0, endTime := some 45,
        rtmpUrl := "rtmp://x/live" }).takeWhile (fun a => a != "-i") :=
  C1_loop_suppresses_input_trim "f.mp4"
    { loopCount := some 2, startTime := some 0, endTime := some 45,
      rtmpUrl := "rtmp://x/live" }
    2 45 0 rfl (by decide) rfl rfl (by decide)

/-- The destination exactly as the C7 claim words it: the base URL always
stripped of a trailing slash, with the access key appended as a path
segment exactly when a stream key is configured.  This follows the
claim's words, to be compared with `rtmpDest`, which follows the code. -/
def claimedDest (c : StreamConfig) : String :=
  match c.streamKey with
  | some k => if k ≠ "" then stripSlash c.rtmpUrl ++ "/" ++ k
              else stripSlash c.rtmpUrl
  | none => stripSlash c.rtmpUrl

/-- C7 counterexample: with a trailing-slash base URL and no stream key,
the code emits the base URL verbatim, not slash-stripped as the claim
demands. -/
theorem C7_counterexample :
    (buildFfmpegArgs "f.mp4" { rtmpUrl := "rtmp://x/live/" }).getLast?
      ≠ some (claimedDest { rtmpUrl := "rtmp://x/live/" }) := by
  decide

/-- C7 (amended): the final element of the built argument list is always
the destination `rtmpDest`: with a truthy stream key, the base URL with
a trailing slash stripped plus the key as an extra path segment; with no
key, the base URL verbatim (no slash stripping). -/
theorem C7_destination_is_last (fp : String) (c : StreamConfig) :
    (buildFfmpegArgs fp c).getLast? = some (rtmpDest c) := by
  have h : buildFfmpegArgs fp c
      = (["-re"] ++ loopSection c ++ ssSection c ++ trimSection c
        ++ ["-i", fp] ++ codecSection ++ vfSection c ++ fpsSection c
        ++ bitrateSection c ++ audioSection ++ durationSection c
        ++ ["-f", "flv"]) ++ [rtmpDest c] := by
    simp [buildFfmpegArgs]
  rw [h]
  exact List.getLast?_concat _

end FfmpegUtils
